import Mathlib

/-!
Shallow embedding of `examples/multigoal_ray.py` (softlearning repository).

The script wires together an environment, replay buffer, sampler, function
approximators, a policy and a SAC training loop, then submits one experiment
to ray tune.  We model each constructor call by a Lean structure recording the
keyword arguments passed at the call site, Python dicts by insertion-ordered
association lists, floating-point literals by the rationals they denote
(no arithmetic is ever performed on them), and the two failure modes of the
script (KeyError on a missing dict key, UnboundLocalError on the never-assigned
local `policy`) by an `Except` error type.  `np.nan` inside a literal list is
modelled as `none : Option Rat`.
-/

namespace MultigoalRay

/-- Python dict lookup `d[k]` on an insertion-ordered association list
(keys are unique, so first match is the value). -/
def dictGet (d : List (String × String)) (k : String) : Option String :=
  match d with
  | [] => none
  | (k₁, v₁) :: rest => if k₁ = k then some v₁ else dictGet rest k

/-- Python dict assignment `d[k] = v`: replace in place when the key exists,
otherwise append (insertion-order semantics of Python dicts). -/
def dictSet (d : List (String × String)) (k v : String) : List (String × String) :=
  match d with
  | [] => [(k, v)]
  | (k₁, v₁) :: rest => if k₁ = k then (k, v) :: rest else (k₁, v₁) :: dictSet rest k v

/-- The keys of a Python dict, in insertion order. -/
def dictKeys (d : List (String × String)) : List String :=
  d.map Prod.fst

/-- Keyword arguments of the `MultiGoalEnv(...)` call. -/
structure MultiGoalEnv where
  actuation_cost_coeff : Rat
  distance_cost_coeff : Rat
  goal_reward : Rat
  init_sigma : Rat
deriving DecidableEq

/-- `rllab.envs.normalized_env.normalize` wrapping the inner environment. -/
structure NormalizedEnv where
  wrapped_env : MultiGoalEnv
deriving DecidableEq

/-- `normalize(env)`. -/
def normalize (e : MultiGoalEnv) : NormalizedEnv :=
  { wrapped_env := e }

/-- The `env.spec` object handed to the constructors. -/
structure EnvSpec where
  of_env : NormalizedEnv
deriving DecidableEq

/-- `env.spec`. -/
def NormalizedEnv.spec (e : NormalizedEnv) : EnvSpec :=
  { of_env := e }

/-- Keyword arguments of the `SimpleReplayBuffer(...)` call. -/
structure SimpleReplayBuffer where
  max_replay_buffer_size : Rat
  env_spec : EnvSpec
deriving DecidableEq

/-- Keyword arguments of the `SimpleSampler(...)` call. -/
structure SimpleSampler where
  max_path_length : Nat
  min_pool_size : Nat
  batch_size : Nat
deriving DecidableEq

/-- The `base_kwargs` dict built in `run`. -/
structure BaseKwargs where
  sampler : SimpleSampler
  epoch_length : Nat
  n_epochs : Nat
  n_train_repeat : Nat
  eval_render : Bool
  eval_n_episodes : Nat
  eval_deterministic : Bool
deriving DecidableEq

/-- Keyword arguments of an `NNQFunction(...)` call. -/
structure NNQFunction where
  env_spec : EnvSpec
  hidden_layer_sizes : List Nat
  name : String
deriving DecidableEq

/-- Keyword arguments of the `NNVFunction(...)` call. -/
structure NNVFunction where
  env_spec : EnvSpec
  hidden_layer_sizes : List Nat
deriving DecidableEq

/-- Keyword arguments of the `GMMPolicy(...)` call. -/
structure GMMPolicy where
  env_spec : EnvSpec
  K : Nat
  hidden_layer_sizes : List Nat
  qf : NNQFunction
  reg : Rat
deriving DecidableEq

/-- The `bijector_config` dict built in the `lsp` branch of `run`.
The one-element Python tuples `(M,)` are modelled as one-element lists. -/
structure BijectorConfig where
  scale_regularization : Rat
  num_coupling_layers : Nat
  translation_hidden_sizes : List Nat
  scale_hidden_sizes : List Nat
deriving DecidableEq

/-- Keyword arguments of the `LatentSpacePolicy(...)` call.
`observations_preprocessor=None` is modelled as `none`. -/
structure LatentSpacePolicy where
  env_spec : EnvSpec
  mode : String
  squash : Bool
  bijector_config : BijectorConfig
  observations_preprocessor : Option Unit
  q_function : NNQFunction
deriving DecidableEq

/-- The local variable `policy` of `run`: one of the two policy classes. -/
inductive Policy where
  | gmm (p : GMMPolicy)
  | lsp (p : LatentSpacePolicy)
deriving DecidableEq

/-- Keyword arguments of the `QFPolicyPlotter(...)` call.  `obs_lst` is the
literal 3x2 numpy array; `default_action=[np.nan, np.nan]` is modelled with
`none` standing for `np.nan`. -/
structure QFPolicyPlotter where
  qf : NNQFunction
  policy : Policy
  obs_lst : List (List Rat)
  default_action : List (Option Rat)
  n_samples : Nat
deriving DecidableEq

/-- Keyword arguments of the `SAC(...)` call.
`initial_exploration_policy=None` is modelled as `none`. -/
structure SACAlg where
  base_kwargs : BaseKwargs
  env : NormalizedEnv
  policy : Policy
  initial_exploration_policy : Option Policy
  pool : SimpleReplayBuffer
  qf1 : NNQFunction
  qf2 : NNQFunction
  vf : NNVFunction
  plotter : QFPolicyPlotter
  lr : Rat
  target_entropy : Rat
  discount : Rat
  tau : Rat
  save_full_state : Bool
deriving DecidableEq

/-- One `reporter(timesteps_total=..., mean_accuracy=...)` call made by the
training loop of `run`.  `E` and `R` are the (opaque) types of the `epoch` and
`mean_return` values yielded by `algorithm.train()`. -/
structure ReporterCall (E R : Type) where
  timesteps_total : E
  mean_accuracy : R
deriving DecidableEq

/-- The ways `run` can raise before reaching the training loop. -/
inductive RunError where
  | keyError (key : String)
  | unboundLocal (name : String)
deriving DecidableEq

/-- Everything `run` constructs and does when it completes normally:
the objects built (recorded with the keyword arguments of each call site)
and the sequence of `reporter` calls, in order. -/
structure RunResult (E R : Type) where
  env : NormalizedEnv
  pool : SimpleReplayBuffer
  sampler : SimpleSampler
  qf1 : NNQFunction
  qf2 : NNQFunction
  vf : NNVFunction
  policy : Policy
  plotter : QFPolicyPlotter
  algorithm : SACAlg
  reporterCalls : List (ReporterCall E R)
deriving DecidableEq

/-- `run(variant, reporter)` from `examples/multigoal_ray.py`.

`variant` is the Python dict argument; `trainYields` is the finite sequence of
`(epoch, mean_return)` pairs yielded by `algorithm.train()` (the training
computation itself lives in the external SAC library, so its output stream is
a parameter).  Reading `variant["policy_type"]` on a missing key is Python's
KeyError; when the value is neither "gmm" nor "lsp" the local `policy` is
never assigned and the `policy=policy` keyword of the `QFPolicyPlotter(...)`
call raises UnboundLocalError, so neither the plotter nor the SAC algorithm
is constructed and `reporter` is never called. -/
def run {E R : Type} (variant : List (String × String)) (trainYields : List (E × R)) :
    Except RunError (RunResult E R) :=
  let env : NormalizedEnv := normalize
    { actuation_cost_coeff := 1
      distance_cost_coeff := 1/10
      goal_reward := 1
      init_sigma := 1/10 }
  let pool : SimpleReplayBuffer :=
    { max_replay_buffer_size := 1000000, env_spec := env.spec }
  let sampler : SimpleSampler :=
    { max_path_length := 30, min_pool_size := 100, batch_size := 64 }
  let base_kwargs : BaseKwargs :=
    { sampler := sampler
      epoch_length := 100
      n_epochs := 1000
      n_train_repeat := 1
      eval_render := true
      eval_n_episodes := 10
      eval_deterministic := false }
  let M : Nat := 128
  let qf1 : NNQFunction :=
    { env_spec := env.spec, hidden_layer_sizes := [M, M], name := "qf1" }
  let qf2 : NNQFunction :=
    { env_spec := env.spec, hidden_layer_sizes := [M, M], name := "qf2" }
  let vf : NNVFunction :=
    { env_spec := env.spec, hidden_layer_sizes := [M, M] }
  match dictGet variant "policy_type" with
  | none => .error (.keyError "policy_type")
  | some pt =>
    let policyOpt : Option Policy :=
      if pt = "gmm" then
        some (.gmm
          { env_spec := env.spec
            K := 4
            hidden_layer_sizes := [M, M]
            qf := qf1
            reg := 1/1000 })
      else if pt = "lsp" then
        let bijector_config : BijectorConfig :=
          { scale_regularization := 0
            num_coupling_layers := 2
            translation_hidden_sizes := [M]
            scale_hidden_sizes := [M] }
        some (.lsp
          { env_spec := env.spec
            mode := "train"
            squash := true
            bijector_config := bijector_config
            observations_preprocessor := none
            q_function := qf1 })
      else none
    match policyOpt with
    | none => .error (.unboundLocal "policy")
    | some policy =>
      let plotter : QFPolicyPlotter :=
        { qf := qf1
          policy := policy
          obs_lst := [[-5/2, 0], [0, 0], [5/2, 5/2]]
          default_action := [none, none]
          n_samples := 100 }
      let algorithm : SACAlg :=
        { base_kwargs := base_kwargs
          env := env
          policy := policy
          initial_exploration_policy := none
          pool := pool
          qf1 := qf1
          qf2 := qf2
          vf := vf
          plotter := plotter
          lr := 3/10000
          target_entropy := -6
          discount := 99/100
          tau := 1/10000
          save_full_state := true }
      .ok
        { env := env
          pool := pool
          sampler := sampler
          qf1 := qf1
          qf2 := qf2
          vf := vf
          policy := policy
          plotter := plotter
          algorithm := algorithm
          reporterCalls := trainYields.map (fun p =>
            { timesteps_total := p.1, mean_accuracy := p.2 }) }

/-- The parsed argparse namespace. -/
structure Args where
  mode : String
  policy_type : String
deriving DecidableEq

/-- Argparse failure: the parser prints an error and exits. -/
inductive ParseError where
  | invalidChoice (value : String)
deriving DecidableEq

/-- `parse_args()` from `examples/multigoal_ray.py`, modelled over the values
supplied on the command line for the two declared options (`none` = flag
absent).  `--mode` accepts any string and defaults to "local"; `--policy-type`
defaults to "gmm" and is constrained by `choices=("gmm", "lsp")`: any other
supplied value makes argparse error out. -/
def parse_args (argMode argPolicyType : Option String) : Except ParseError Args :=
  let mode := argMode.getD "local"
  match argPolicyType with
  | none => .ok { mode := mode, policy_type := "gmm" }
  | some v =>
    if v = "gmm" ∨ v = "lsp" then .ok { mode := mode, policy_type := v }
    else .error (.invalidChoice v)

/-- The `ray.init` call made by `main`: either `ray.init()` with no redis
address, or `ray.init(redis_address=<node ip> + ":6379")`. -/
inductive RayInitCall where
  | localInit
  | redisInit (redis_address : String)
deriving DecidableEq

/-- A value registered with `tune.register_trainable`; the script registers
exactly the function `run`. -/
inductive Trainable where
  | runFn
deriving DecidableEq

/-- One experiment entry handed to `tune.run_experiments`. -/
structure Experiment where
  run : String
  trial_resources : List (String × Nat)
  config : List (String × String)
  local_dir : String
deriving DecidableEq

/-- Everything `main` does after successful argument parsing. -/
structure MainResult where
  args : Args
  rayInit : RayInitCall
  registered : List (String × Trainable)
  variants : List (String × String)
  experiments : List (String × Experiment)
deriving DecidableEq

/-- `main()` from `examples/multigoal_ray.py`.

`ts` is the value of `timestamp()` and `nodeIp` the value of
`ray.services.get_node_ip_address()`; both come from the outside world.
The source sets the ray-init mode and `local_dir_base` in one if/else on
`args.mode == "local"`; we model that branch as a pair.  `local_dir` is the
format-string result `local_dir_base + "/multigoal/default"`, and `main`
mutates the `variants` dict with `variants["local_dir"] = local_dir` before
submitting the single experiment named `"multigoal-" + timestamp()`. -/
def main (argMode argPolicyType : Option String) (ts nodeIp : String) :
    Except ParseError MainResult :=
  match parse_args argMode argPolicyType with
  | .error e => .error e
  | .ok args =>
    let variants : List (String × String) := [("policy_type", args.policy_type)]
    let registered : List (String × Trainable) := [("multigoal-runner", .runFn)]
    let initAndBase : RayInitCall × String :=
      if args.mode = "local" then (.localInit, "./data/ray/results")
      else (.redisInit (nodeIp ++ ":6379"), "~/ray_results")
    let local_dir : String := initAndBase.2 ++ "/multigoal/default"
    let variants := dictSet variants "local_dir" local_dir
    .ok
      { args := args
        rayInit := initAndBase.1
        registered := registered
        variants := variants
        experiments := [("multigoal-" ++ ts,
          { run := "multigoal-runner"
            trial_resources := [("cpu", 2)]
            config := variants
            local_dir := local_dir })] }

deriving instance DecidableEq for Except

/-- The environment `run` constructs; it does not depend on the variant. -/
def builtEnv : NormalizedEnv := normalize
  { actuation_cost_coeff := 1
    distance_cost_coeff := 1/10
    goal_reward := 1
    init_sigma := 1/10 }

/-- The first Q-function instance `run` constructs (`qf1`). -/
def builtQf1 : NNQFunction :=
  { env_spec := builtEnv.spec, hidden_layer_sizes := [128, 128], name := "qf1" }

/-- The result of `main` invoked with no command-line flags (mode "local",
policy type "gmm"), timestamp "T" and node ip "IP". -/
def mainResLocalGmm : MainResult :=
  { args := { mode := "local", policy_type := "gmm" }
    rayInit := .localInit
    registered := [("multigoal-runner", .runFn)]
    variants := [("policy_type", "gmm"),
                 ("local_dir", "./data/ray/results/multigoal/default")]
    experiments := [("multigoal-" ++ "T",
      { run := "multigoal-runner"
        trial_resources := [("cpu", 2)]
        config := [("policy_type", "gmm"),
                   ("local_dir", "./data/ray/results/multigoal/default")]
        local_dir := "./data/ray/results/multigoal/default" })] }

/-- The result of `main` invoked with mode "remote" and policy type "lsp",
timestamp "T" and node ip "IP". -/
def mainResRemoteLsp : MainResult :=
  { args := { mode := "remote", policy_type := "lsp" }
    rayInit := .redisInit ("IP" ++ ":6379")
    registered := [("multigoal-runner", .runFn)]
    variants := [("policy_type", "lsp"),
                 ("local_dir", "~/ray_results/multigoal/default")]
    experiments := [("multigoal-" ++ "T",
      { run := "multigoal-runner"
        trial_resources := [("cpu", 2)]
        config := [("policy_type", "lsp"),
                   ("local_dir", "~/ray_results/multigoal/default")]
        local_dir := "~/ray_results/multigoal/default" })] }

/-- Claim C3: parse_args accepts an optional mode flag as an arbitrary string
defaulting to "local" and an optional policy-type flag defaulting to "gmm";
it succeeds iff the supplied policy-type value (when present) is "gmm" or
"lsp", and errors out for every other value. -/
theorem parse_args_choices (argMode argPolicyType : Option String) :
    ((∃ a, parse_args argMode argPolicyType = .ok a) ↔
      (argPolicyType = none ∨ argPolicyType = some "gmm" ∨ argPolicyType = some "lsp"))
    ∧ (∀ a, parse_args argMode argPolicyType = .ok a →
        a.mode = argMode.getD "local" ∧ a.policy_type = argPolicyType.getD "gmm") := by
  cases argPolicyType with
  | none => simp [parse_args]
  | some v =>
    by_cases h : v = "gmm" ∨ v = "lsp"
    · refine ⟨by simp [parse_args, h], ?_⟩
      intro a ha
      simp [parse_args, h] at ha
      subst ha
      simp
    · refine ⟨by simp [parse_args, h], ?_⟩
      intro a ha
      simp [parse_args, h] at ha

/-- Witness for Claim C3 at a concrete input: parsing mode "remote" with
policy type "lsp" succeeds and yields those two values. -/
theorem parse_args_choices_witness :
    (Args.mk "remote" "lsp").mode = (some "remote").getD "local" ∧
    (Args.mk "remote" "lsp").policy_type = (some "lsp").getD "gmm" :=
  (parse_args_choices (some "remote") (some "lsp")).2 (Args.mk "remote" "lsp") rfl

/-- Claim C2: for every finite sequence of (epoch, mean_return) pairs yielded
by algorithm.train(), run calls reporter exactly once per yielded pair, in
yield order, with timesteps_total set to the epoch and mean_accuracy set to
the mean_return, and makes no other reporter calls. -/
theorem run_reporter_calls {E R : Type} (variant : List (String × String))
    (trainYields : List (E × R))
    (h : dictGet variant "policy_type" = some "gmm" ∨
         dictGet variant "policy_type" = some "lsp") :
    (run variant trainYields).map RunResult.reporterCalls =
      .ok (trainYields.map (fun p =>
        { timesteps_total := p.1, mean_accuracy := p.2 })) := by
  rcases h with h | h <;> simp [run, h, Except.map]

/-- Witness for Claim C2 at a concrete input: with policy type "gmm" and two
yielded pairs, exactly those two reporter calls are made, in order. -/
theorem run_reporter_calls_witness :
    (run [("policy_type", "gmm")] [((3 : Nat), (7 : Nat)), (4, 9)]).map
        RunResult.reporterCalls =
      .ok [{ timesteps_total := 3, mean_accuracy := 7 },
           { timesteps_total := 4, mean_accuracy := 9 }] :=
  run_reporter_calls [("policy_type", "gmm")] [((3 : Nat), (7 : Nat)), (4, 9)]
    (Or.inl rfl)

/-- Claim C4: for every variant that reaches the SAC construction, the SAC
algorithm is built with lr = 3e-4, target_entropy = -6.0, discount = 0.99,
tau = 1e-4, save_full_state = true, and base_kwargs with epoch_length = 100,
n_epochs = 1000, n_train_repeat = 1, eval_n_episodes = 10; the right-hand
side is a constant, so none of these values depend on the variant. -/
theorem run_sac_hyperparameters {E R : Type} (variant : List (String × String))
    (trainYields : List (E × R))
    (h : dictGet variant "policy_type" = some "gmm" ∨
         dictGet variant "policy_type" = some "lsp") :
    (run variant trainYields).map (fun r =>
        (r.algorithm.lr, r.algorithm.target_entropy, r.algorithm.discount,
         r.algorithm.tau, r.algorithm.save_full_state,
         r.algorithm.base_kwargs.epoch_length, r.algorithm.base_kwargs.n_epochs,
         r.algorithm.base_kwargs.n_train_repeat,
         r.algorithm.base_kwargs.eval_n_episodes)) =
      .ok (3/10000, -6, 99/100, 1/10000, true, 100, 1000, 1, 10) := by
  rcases h with h | h <;> simp [run, h, Except.map]

/-- Witness for Claim C4 at a concrete input (policy type "lsp"). -/
theorem run_sac_hyperparameters_witness :
    (run [("policy_type", "lsp")] ([] : List (Nat × Nat))).map (fun r =>
        (r.algorithm.lr, r.algorithm.target_entropy, r.algorithm.discount,
         r.algorithm.tau, r.algorithm.save_full_state,
         r.algorithm.base_kwargs.epoch_length, r.algorithm.base_kwargs.n_epochs,
         r.algorithm.base_kwargs.n_train_repeat,
         r.algorithm.base_kwargs.eval_n_episodes)) =
      .ok (3/10000, -6, 99/100, 1/10000, true, 100, 1000, 1, 10) :=
  run_sac_hyperparameters [("policy_type", "lsp")] ([] : List (Nat × Nat))
    (Or.inr rfl)

/-- Claim C5: with policy type "gmm", run constructs a GMMPolicy with K = 4,
reg = 0.001, hidden layer sizes [128, 128] and qf the qf1 instance; with
policy type "lsp", a LatentSpacePolicy with squash = true, 2 coupling layers
and q_function the qf1 instance; in both cases the qf1 field of the result is
that same instance, and the constructed policy is the one passed to the
plotter and to the SAC algorithm. -/
theorem run_policy_selection {E R : Type} (variant : List (String × String))
    (trainYields : List (E × R)) :
    ((dictGet variant "policy_type" = some "gmm" →
      (run variant trainYields).map RunResult.policy =
        .ok (Policy.gmm
          { env_spec := builtEnv.spec
            K := 4
            hidden_layer_sizes := [128, 128]
            qf := builtQf1
            reg := 1/1000 }))
    ∧ (dictGet variant "policy_type" = some "lsp" →
      (run variant trainYields).map RunResult.policy =
        .ok (Policy.lsp
          { env_spec := builtEnv.spec
            mode := "train"
            squash := true
            bijector_config :=
              { scale_regularization := 0
                num_coupling_layers := 2
                translation_hidden_sizes := [128]
                scale_hidden_sizes := [128] }
            observations_preprocessor := none
            q_function := builtQf1 }))
    ∧ ((dictGet variant "policy_type" = some "gmm" ∨
        dictGet variant "policy_type" = some "lsp") →
      (run variant trainYields).map RunResult.qf1 = .ok builtQf1)
    ∧ ((run variant trainYields).map (fun r =>
          (r.plotter.policy, r.algorithm.policy)) =
        (run variant trainYields).map (fun r => (r.policy, r.policy)))) := by
  refine ⟨?_, ?_, ?_, ?_⟩
  · intro h
    simp [run, h, builtEnv, builtQf1, normalize, Except.map]
  · intro h
    simp [run, h, builtEnv, builtQf1, normalize, Except.map]
  · rintro (h | h) <;> simp [run, h, builtEnv, builtQf1, normalize, Except.map]
  · cases hg : dictGet variant "policy_type" with
    | none => simp [run, hg, Except.map]
    | some pt =>
      by_cases h1 : pt = "gmm"
      · simp [run, hg, h1, Except.map]
      · by_cases h2 : pt = "lsp" <;> simp [run, hg, h1, h2, Except.map]

/-- Witness for Claim C5 at a concrete input (policy type "gmm"). -/
theorem run_policy_selection_witness :
    (run [("policy_type", "gmm")] ([] : List (Nat × Nat))).map RunResult.policy =
      .ok (Policy.gmm
        { env_spec := builtEnv.spec
          K := 4
          hidden_layer_sizes := [128, 128]
          qf := builtQf1
          reg := 1/1000 }) :=
  (run_policy_selection [("policy_type", "gmm")] ([] : List (Nat × Nat))).1 rfl

/-- Claim C7: for every variant whose policy_type value is neither "gmm" nor
"lsp", run fails with an UnboundLocalError on the name policy (raised at the
QFPolicyPlotter construction), so no SAC algorithm is constructed and the
reporter is never called. -/
theorem run_unbound_policy {E R : Type} (variant : List (String × String))
    (trainYields : List (E × R)) (pt : String)
    (hget : dictGet variant "policy_type" = some pt)
    (h1 : pt ≠ "gmm") (h2 : pt ≠ "lsp") :
    run variant trainYields = .error (.unboundLocal "policy") := by
  simp [run, hget, h1, h2]

/-- Witness for Claim C7 at a concrete input: policy type "foo". -/
theorem run_unbound_policy_witness :
    run [("policy_type", "foo")] ([] : List (Nat × Nat)) =
      .error (.unboundLocal "policy") :=
  run_unbound_policy [("policy_type", "foo")] ([] : List (Nat × Nat)) "foo"
    rfl (by decide) (by decide)

/-- Claim C8: run reads only the policy_type key of its variant argument: two
variant dicts that agree on that key (whatever their other keys) produce the
same result, construction for construction and reporter call for reporter
call. -/
theorem run_reads_only_policy_type {E R : Type}
    (v₁ v₂ : List (String × String)) (trainYields : List (E × R))
    (h : dictGet v₁ "policy_type" = dictGet v₂ "policy_type") :
    run v₁ trainYields = run v₂ trainYields := by
  unfold run
  rw [h]

/-- Witness for Claim C8 at a concrete input: a variant with an extra
local_dir key behaves like one without it. -/
theorem run_reads_only_policy_type_witness :
    run [("policy_type", "gmm")] ([(3, 7)] : List (Nat × Nat)) =
      run [("policy_type", "gmm"), ("local_dir", "/tmp/x")] [(3, 7)] :=
  run_reads_only_policy_type [("policy_type", "gmm")]
    [("policy_type", "gmm"), ("local_dir", "/tmp/x")]
    ([(3, 7)] : List (Nat × Nat)) (by decide)

/-- Claim C1: after successful argument parsing, main registers the run
function as the trainable "multigoal-runner" and submits exactly one
experiment, whose run field names that trainable, whose trial_resources are
cpu 2, and whose config is the variants dict containing the parsed
policy_type. -/
theorem main_submits_one_experiment (argMode argPolicyType : Option String)
    (ts nodeIp : String) (r : MainResult)
    (h : main argMode argPolicyType ts nodeIp = .ok r) :
    parse_args argMode argPolicyType = .ok r.args ∧
    r.registered = [("multigoal-runner", Trainable.runFn)] ∧
    ∃ e, r.experiments = [("multigoal-" ++ ts, e)] ∧
      e.run = "multigoal-runner" ∧
      e.trial_resources = [("cpu", 2)] ∧
      e.config = r.variants ∧
      dictGet e.config "policy_type" = some r.args.policy_type := by
  cases hp : parse_args argMode argPolicyType with
  | error e => simp [main, hp] at h
  | ok args =>
    simp only [main, hp] at h
    injection h with h
    subst h
    refine ⟨rfl, rfl, _, rfl, rfl, rfl, rfl, ?_⟩
    simp [dictSet, dictGet]

/-- Witness for Claim C1 at a concrete input: no flags, timestamp "T". -/
theorem main_submits_one_experiment_witness :
    main none none "T" "IP" = .ok mainResLocalGmm ∧
    (parse_args none none = .ok mainResLocalGmm.args ∧
     mainResLocalGmm.registered = [("multigoal-runner", Trainable.runFn)] ∧
     ∃ e, mainResLocalGmm.experiments = [("multigoal-" ++ "T", e)] ∧
       e.run = "multigoal-runner" ∧
       e.trial_resources = [("cpu", 2)] ∧
       e.config = mainResLocalGmm.variants ∧
       dictGet e.config "policy_type" = some mainResLocalGmm.args.policy_type) :=
  ⟨by decide, main_submits_one_experiment none none "T" "IP" mainResLocalGmm
    (by decide)⟩

/-- Claim C6: when the parsed mode is "local", main calls ray.init with no
redis address and the submitted experiments local_dir is
./data/ray/results/multigoal/default; for every other mode it calls ray.init
with redis address the node ip plus port 6379 and the local_dir is the
home-relative ray_results path. -/
theorem main_mode_dispatch (argMode argPolicyType : Option String)
    (ts nodeIp : String) (r : MainResult)
    (h : main argMode argPolicyType ts nodeIp = .ok r) :
    (r.args.mode = "local" →
      r.rayInit = .localInit ∧
      ∀ p ∈ r.experiments, p.2.local_dir = "./data/ray/results/multigoal/default") ∧
    (r.args.mode ≠ "local" →
      r.rayInit = .redisInit (nodeIp ++ ":6379") ∧
      ∀ p ∈ r.experiments, p.2.local_dir = "~/ray_results/multigoal/default") := by
  cases hp : parse_args argMode argPolicyType with
  | error e => simp [main, hp] at h
  | ok args =>
    simp only [main, hp] at h
    injection h with h
    subst h
    by_cases hm : args.mode = "local" <;> simp [hm]

/-- Witness for Claim C6 at a concrete input: mode "remote", so ray.init is
called with the redis address IP:6379 and the local_dir is the home-relative
path. -/
theorem main_mode_dispatch_witness :
    (Args.mode mainResRemoteLsp.args = "local" →
      mainResRemoteLsp.rayInit = .localInit ∧
      ∀ p ∈ mainResRemoteLsp.experiments,
        p.2.local_dir = "./data/ray/results/multigoal/default") ∧
    (Args.mode mainResRemoteLsp.args ≠ "local" →
      mainResRemoteLsp.rayInit = .redisInit ("IP" ++ ":6379") ∧
      ∀ p ∈ mainResRemoteLsp.experiments,
        p.2.local_dir = "~/ray_results/multigoal/default") :=
  main_mode_dispatch (some "remote") (some "lsp") "T" "IP" mainResRemoteLsp
    (by decide)

/-- Claim C9: main mutates the variants dict by adding the key local_dir, so
the submitted experiments config dict has exactly the two keys policy_type
and local_dir in that order, the config is the mutated variants dict, and the
config entry for local_dir equals the experiments top-level local_dir. -/
theorem main_config_local_dir (argMode argPolicyType : Option String)
    (ts nodeIp : String) (r : MainResult)
    (h : main argMode argPolicyType ts nodeIp = .ok r) :
    dictKeys r.variants = ["policy_type", "local_dir"] ∧
    ∀ p ∈ r.experiments, p.2.config = r.variants ∧
      dictKeys p.2.config = ["policy_type", "local_dir"] ∧
      dictGet p.2.config "local_dir" = some p.2.local_dir := by
  cases hp : parse_args argMode argPolicyType with
  | error e => simp [main, hp] at h
  | ok args =>
    simp only [main, hp] at h
    injection h with h
    subst h
    simp [dictSet, dictKeys, dictGet]

/-- Witness for Claim C9 at a concrete input: no flags, timestamp "T". -/
theorem main_config_local_dir_witness :
    dictKeys mainResLocalGmm.variants = ["policy_type", "local_dir"] ∧
    ∀ p ∈ mainResLocalGmm.experiments, p.2.config = mainResLocalGmm.variants ∧
      dictKeys p.2.config = ["policy_type", "local_dir"] ∧
      dictGet p.2.config "local_dir" = some p.2.local_dir :=
  main_config_local_dir none none "T" "IP" mainResLocalGmm (by decide)

end MultigoalRay
